import Mathlib

/-!
Verification of the spotli OAuth2 token-lifecycle manager.

Shallow embedding of `src/spotli/base/authorization.py` (class `SpotifyAuth`),
of the older near-duplicate `src/spotli/authorization.py` (namespace `Legacy`),
and of `src/spotli/base/api.py` / `src/spotli/spotify_api.py` (`SpotifyAPI`).

Modelling conventions:
* JSON objects (the Python `dict`s holding token records, request bodies and
  response bodies) are association lists `List (String × Value)`; Python
  `d[k] = v` is `Dict.upsert`, `d.update(e)` is `Dict.update`, `d.get(k)` and
  `d[k]` are `Dict.find` (with a `keyError` where Python would raise).
* Wall-clock instants (`datetime` values) are `Nat` seconds.  The source
  formats `expires_at` with `strftime("%Y-%m-%dT%H:%M:%S")` and parses it back
  with `strptime` of the same format; that pair is injective and
  order-preserving at second granularity, so `datetime` comparison and
  `timedelta` addition are `Nat` comparison and addition here.
* Network calls are passed in as `HttpResponse` values; `requests`'
  `raise_for_status` is embedded by its documented condition (raise exactly
  when `400 ≤ status < 600`).
* Effects are explicit: an `Outcome` records the returned value or exception,
  the final content of the token file, and the token-endpoint request bodies
  issued, in order.
-/

set_option autoImplicit false

namespace Spotli

/-- JSON scalar values occurring in token records: strings and integers. -/
inductive Value where
  | str (s : String)
  | nat (n : Nat)
deriving DecidableEq, Repr

/-- A JSON object / Python dict, as an ordered association list. -/
abbrev Dict := List (String × Value)

namespace Dict

/-- Python `d.get(k)` / `d[k]`: the value at the first matching key. -/
def find : Dict → String → Option Value
  | [], _ => none
  | kv :: rest, k => if kv.1 = k then some kv.2 else find rest k

/-- Python `d[k] = v`: replace the value at an existing key in place,
otherwise append the new pair at the end (insertion order). -/
def upsert : Dict → String → Value → Dict
  | [], k, v => [(k, v)]
  | kv :: rest, k, v => if kv.1 = k then (k, v) :: rest else kv :: upsert rest k v

/-- Python `d.update(e)`: set `d[k] = v` for each pair of `e`, in order. -/
def update : Dict → Dict → Dict
  | d, [] => d
  | d, kv :: rest => update (upsert d kv.1 kv.2) rest

/-- The keys of a dict, in order. -/
def keys (d : Dict) : List String := d.map Prod.fst

theorem find_upsert (d : Dict) (k q : String) (v : Value) :
    find (upsert d k v) q = if q = k then some v else find d q := by
  induction d with
  | nil =>
    by_cases h : q = k
    · simp [upsert, find, h]
    · simp [upsert, find, h, Ne.symm h]
  | cons kv rest ih =>
    by_cases hk : kv.1 = k
    · subst hk
      by_cases h : q = kv.1
      · subst h; simp [upsert, find]
      · simp [upsert, find, h, Ne.symm h]
    · by_cases h : q = k
      · subst h
        simp [upsert, find, hk, ih]
      · simp [upsert, find, hk, h, ih]

theorem find_eq_none_of_not_mem_keys (d : Dict) (k : String) (h : k ∉ keys d) :
    find d k = none := by
  induction d with
  | nil => rfl
  | cons kv rest ih =>
    simp only [keys, List.map_cons, List.mem_cons, not_or] at h
    simp only [find, if_neg (fun he : kv.1 = k => h.1 he.symm)]
    exact ih h.2

theorem find_update (d e : Dict) (h : (keys e).Nodup) (q : String) :
    find (update d e) q =
      match find e q with
      | some v => some v
      | none => find d q := by
  induction e generalizing d with
  | nil => simp [update, find]
  | cons kv rest ih =>
    simp only [keys, List.map_cons, List.nodup_cons] at h
    have hrec := ih (upsert d kv.1 kv.2) h.2
    by_cases hq : q = kv.1
    · subst hq
      have hnone : find rest kv.1 = none :=
        find_eq_none_of_not_mem_keys rest kv.1 h.1
      show find (update (upsert d kv.1 kv.2) rest) kv.1 = _
      rw [hrec, hnone, find_upsert, if_pos rfl]
      simp [find]
    · have hkq : kv.1 ≠ q := fun he => hq he.symm
      show find (update (upsert d kv.1 kv.2) rest) q = _
      rw [hrec]
      simp only [find, if_neg hkq]
      cases hfr : find rest q with
      | some v => simp
      | none => simp [find_upsert, hq]

end Dict

/-- Resolved OAuth client credentials held by a `SpotifyAuth` instance.
Python `None` and the empty string (both falsy in `_check_arguments`) are
modelled as `""`. -/
structure SpotifyAuth where
  client_id : String
  client_secret : String
  redirect_uri : String
deriving DecidableEq, Repr

/-- Exceptions the embedded code can raise.  `missingArgs` is
`MissingRequiredArgumentsError`, `authorizationError` is `AuthorizationError`,
`httpError` is the `requests.HTTPError` raised by `raise_for_status`
(carrying the response status), and `keyError` / `typeError` /
`attributeError` are the corresponding Python built-in exceptions. -/
inductive AuthError where
  | missingArgs (missing : List String)
  | authorizationError
  | httpError (status : Nat)
  | keyError (key : String)
  | typeError
  | attributeError (name : String)
deriving DecidableEq, Repr

/-- A response from the token endpoint: HTTP status and parsed JSON body. -/
structure HttpResponse where
  status : Nat
  body : Dict
deriving DecidableEq, Repr

/-- Embedding of `requests.Response.raise_for_status` followed by
`response.json()`: raises `HTTPError` exactly when `400 ≤ status < 600`
(client and server errors), otherwise yields the parsed body. -/
def raise_for_status (r : HttpResponse) : Except AuthError Dict :=
  if 400 ≤ r.status ∧ r.status < 600 then .error (.httpError r.status)
  else .ok r.body

/-- Request body built by `SpotifyAuth._refresh_access_token`
(`base/authorization.py` lines 73-84). -/
def refreshRequestBody (rt : Value) : Dict :=
  [("grant_type", .str "refresh_token"), ("refresh_token", rt)]

/-- Request body built by `SpotifyAuth._request_access_token`. -/
def codeRequestBody (code : String) (redirect : String) : Dict :=
  [("grant_type", .str "authorization_code"), ("code", .str code),
   ("redirect_uri", .str redirect)]

/-- `SpotifyAuth._check_arguments` (`base/authorization.py` lines 30-40):
the keys of `arg_dict` whose values are falsy, in dict order. -/
def missing_args (a : SpotifyAuth) : List String :=
  (([("client_id", a.client_id), ("client_secret", a.client_secret),
     ("redirect_uri", a.redirect_uri)].filter
      (fun kv => kv.2 = "")).map Prod.fst)

/-- `SpotifyAuth._check_arguments`: raise `MissingRequiredArgumentsError`
with the list of missing argument names when any is falsy. -/
def check_arguments (a : SpotifyAuth) : Except AuthError Unit :=
  if missing_args a = [] then .ok () else .error (.missingArgs (missing_args a))

/-- `SpotifyAuth._save_tokens` (`base/authorization.py` lines 42-51): set
`tokens["expires_at"] = datetime.now() + timedelta(seconds=tokens["expires_in"])`
(formatted at second granularity) and write the whole record to the token
file; the returned dict is the file's new content.  A missing `expires_in`
is a `KeyError`, a non-integer one a `TypeError` in `timedelta`. -/
def save_tokens (now : Nat) (tokens : Dict) : Except AuthError Dict :=
  match Dict.find tokens "expires_in" with
  | some (.nat n) => .ok (Dict.upsert tokens "expires_at" (.nat (now + n)))
  | some _ => .error .typeError
  | none => .error (.keyError "expires_in")

/-- `SpotifyAuth._load_tokens`: return the token-file JSON if the file
exists, `None` otherwise.  The file content is the `Option Dict` itself. -/
def load_tokens (file : Option Dict) : Option Dict := file

/-- Embedding of `datetime.strptime(tokens.get("expires_at"), ...)`:
succeed on a stored timestamp, raise `TypeError` when the key is absent
(`strptime(None, ...)`) or the value is not a timestamp. -/
def parse_expires_at (tokens : Dict) : Except AuthError Nat :=
  match Dict.find tokens "expires_at" with
  | some (.nat n) => .ok n
  | some _ => .error .typeError
  | none => .error .typeError

/-- The environment one `get_access_token` call runs in: the wall clock,
the token-endpoint response to a refresh request, the query parameters of
the single loopback callback request (as parsed by `parse_qs`, blank values
dropped), and the token-endpoint response to a code exchange. -/
structure World where
  now : Nat
  refreshResp : HttpResponse
  callbackQuery : List (String × String)
  exchangeResp : HttpResponse
deriving DecidableEq, Repr

deriving instance DecidableEq for Except

/-- What one call performed: the returned access token or the exception
raised, the final token-file content, and the token-endpoint request bodies
issued, in order. -/
structure Outcome where
  result : Except AuthError Value
  store : Option Dict
  requests : List Dict
deriving DecidableEq, Repr

/-- `query.get("code", [None])[0]` over the parsed callback query string:
the first value carried by a `code` parameter, if any. -/
def server_code (query : List (String × String)) : Option String :=
  (query.find? (fun kv => kv.1 == "code")).map Prod.snd

/-- `SpotifyAuth._start_authorization_flow` (`base/authorization.py`
lines 112-150), from the point where the loopback server has captured its
single request: if no usable `code` was received raise `AuthorizationError`;
otherwise exchange the code (`_request_access_token`, which
`raise_for_status`s), persist via `_save_tokens`, and return
`tokens["access_token"]`. -/
def start_authorization_flow (a : SpotifyAuth) (store : Option Dict)
    (w : World) : Outcome :=
  match server_code w.callbackQuery with
  | none => ⟨.error .authorizationError, store, []⟩
  | some c =>
    if c = "" then ⟨.error .authorizationError, store, []⟩
    else
      let req := codeRequestBody c a.redirect_uri
      match raise_for_status w.exchangeResp with
      | .error e => ⟨.error e, store, [req]⟩
      | .ok tokens =>
        match save_tokens w.now tokens with
        | .error e => ⟨.error e, store, [req]⟩
        | .ok saved =>
          match Dict.find saved "access_token" with
          | none => ⟨.error (.keyError "access_token"), some saved, [req]⟩
          | some tok => ⟨.ok tok, some saved, [req]⟩

/-- `SpotifyAuth.get_access_token` (`base/authorization.py` lines 86-110).
`if tokens:` is Python truthiness, so an empty dict takes the no-token
branch.  On the expired branch the record is merged with the refresh
response (`tokens.update(new_tokens)`), persisted, and its access token
returned; on the live branch the stored access token is returned with no
request issued and the file untouched. -/
def get_access_token (a : SpotifyAuth) (store : Option Dict) (w : World) :
    Outcome :=
  match load_tokens store with
  | some tokens =>
    if tokens.isEmpty then
      match check_arguments a with
      | .error e => ⟨.error e, store, []⟩
      | .ok _ => start_authorization_flow a store w
    else
      match parse_expires_at tokens with
      | .error e => ⟨.error e, store, []⟩
      | .ok ea =>
        if ea < w.now then
          match check_arguments a with
          | .error e => ⟨.error e, store, []⟩
          | .ok _ =>
            match Dict.find tokens "refresh_token" with
            | none => ⟨.error (.keyError "refresh_token"), store, []⟩
            | some rt =>
              let req := refreshRequestBody rt
              match raise_for_status w.refreshResp with
              | .error e => ⟨.error e, store, [req]⟩
              | .ok newTokens =>
                match save_tokens w.now (Dict.update tokens newTokens) with
                | .error e => ⟨.error e, store, [req]⟩
                | .ok saved =>
                  match Dict.find saved "access_token" with
                  | none => ⟨.error (.keyError "access_token"), some saved, [req]⟩
                  | some tok => ⟨.ok tok, some saved, [req]⟩
        else
          match Dict.find tokens "access_token" with
          | none => ⟨.error (.keyError "access_token"), store, []⟩
          | some tok => ⟨.ok tok, store, []⟩
  | none =>
    match check_arguments a with
    | .error e => ⟨.error e, store, []⟩
    | .ok _ => start_authorization_flow a store w

namespace Legacy

/-- `SpotifyAuth._check_arguments` of the older duplicate
`src/spotli/authorization.py` (lines 30-39): same logic, environment-variable
names as keys. -/
def missing_args (a : SpotifyAuth) : List String :=
  (([("SPOTLI_CLIENT_ID", a.client_id), ("SPOTLI_CLIENT_SECRET", a.client_secret),
     ("SPOTLI_REDIRECT_URI", a.redirect_uri)].filter
      (fun kv => kv.2 = "")).map Prod.fst)

/-- `_check_arguments` of `src/spotli/authorization.py`. -/
def check_arguments (a : SpotifyAuth) : Except AuthError Unit :=
  if missing_args a = [] then .ok () else
    .error (.missingArgs (missing_args a))

/-- `SpotifyAuth._start_authorization_flow` of `src/spotli/authorization.py`
(lines 97-133).  Same shape as the `base` flow with one divergence: on the
no-code path line 131 executes
`raise AuthorizationError("Authorization failed. No code received.")`, but
`spotli/exceptions.py` defines `AuthorizationError.__init__(self)` with no
message parameter, so constructing the exception with an argument itself
raises `TypeError` — the `AuthorizationError` is never raised.  No exchange
request is issued on that path either way. -/
def start_authorization_flow (a : SpotifyAuth) (store : Option Dict)
    (w : World) : Outcome :=
  match server_code w.callbackQuery with
  | none => ⟨.error .typeError, store, []⟩
  | some c =>
    if c = "" then ⟨.error .typeError, store, []⟩
    else
      let req := codeRequestBody c a.redirect_uri
      match raise_for_status w.exchangeResp with
      | .error e => ⟨.error e, store, [req]⟩
      | .ok tokens =>
        match save_tokens w.now tokens with
        | .error e => ⟨.error e, store, [req]⟩
        | .ok saved =>
          match Dict.find saved "access_token" with
          | none => ⟨.error (.keyError "access_token"), some saved, [req]⟩
          | some tok => ⟨.ok tok, some saved, [req]⟩

/-- `SpotifyAuth.get_access_token` of `src/spotli/authorization.py`
(lines 72-95).  The class defines no `_refresh_access_token` method (only
`base/authorization.py` does), so on the expired branch the call
`self._refresh_access_token(tokens["refresh_token"])` raises
`AttributeError` as soon as the attribute is looked up — before the
argument is evaluated, before any request is issued and before anything is
written.  The no-token branch runs `_check_arguments` and then this file's
own `_start_authorization_flow` above; the live branch is identical to the
`base` version. -/
def get_access_token (a : SpotifyAuth) (store : Option Dict) (w : World) :
    Outcome :=
  match load_tokens store with
  | some tokens =>
    if tokens.isEmpty then
      match check_arguments a with
      | .error e => ⟨.error e, store, []⟩
      | .ok _ => start_authorization_flow a store w
    else
      match parse_expires_at tokens with
      | .error e => ⟨.error e, store, []⟩
      | .ok ea =>
        if ea < w.now then
          match check_arguments a with
          | .error e => ⟨.error e, store, []⟩
          | .ok _ => ⟨.error (.attributeError "_refresh_access_token"), store, []⟩
        else
          match Dict.find tokens "access_token" with
          | none => ⟨.error (.keyError "access_token"), store, []⟩
          | some tok => ⟨.ok tok, store, []⟩
  | none =>
    match check_arguments a with
    | .error e => ⟨.error e, store, []⟩
    | .ok _ => start_authorization_flow a store w

end Legacy

/-- Exceptions of the API-client module. -/
inductive ApiError where
  | missingApiToken
deriving DecidableEq, Repr

namespace SpotifyAPI

/-- `SpotifyAPI._load_tokens` (`base/api.py` lines 27-31,
`spotify_api.py` lines 18-22): if the token file exists return
`json.load(f).get("access_token")` — `None` when the key is absent —
otherwise raise `MissingApiTokenError`.  The ok value is the
`access_token` attribute of the constructed client. -/
def load_tokens (file : Option Dict) : Except ApiError (Option Value) :=
  match file with
  | some d => .ok (Dict.find d "access_token")
  | none => .error .missingApiToken

end SpotifyAPI

/-- Observable token-file states during `SpotifyAuth._save_tokens`'s write
(`with open(TOKEN_PATH, "w") as f: json.dump(tokens, f)`): opening with
mode `"w"` truncates the file in place, then `json.dump` writes the
serialized record; a reader running concurrently can open the file before
the save, after the truncation, or after the write. -/
def save_write_states (prior : Option String) (serialized : String) :
    List (Option String) :=
  [prior, some "", some serialized]

/-! ## Theorems -/

theorem mem_missing_args (a : SpotifyAuth) (k : String) :
    k ∈ missing_args a ↔
      (k = "client_id" ∧ a.client_id = "")
      ∨ (k = "client_secret" ∧ a.client_secret = "")
      ∨ (k = "redirect_uri" ∧ a.redirect_uri = "") := by
  simp only [missing_args, List.mem_map, List.mem_filter, List.mem_cons,
    List.mem_singleton, List.not_mem_nil, or_false, decide_eq_true_eq]
  constructor
  · rintro ⟨x, ⟨hx | hx | hx, hempty⟩, hk⟩ <;> subst hx <;> subst hk <;>
      simp_all
  · rintro (⟨hk, he⟩ | ⟨hk, he⟩ | ⟨hk, he⟩) <;> subst hk
    · exact ⟨("client_id", a.client_id), ⟨Or.inl rfl, he⟩, rfl⟩
    · exact ⟨("client_secret", a.client_secret), ⟨Or.inr (Or.inl rfl), he⟩, rfl⟩
    · exact ⟨("redirect_uri", a.redirect_uri), ⟨Or.inr (Or.inr rfl), he⟩, rfl⟩

/-- C3: merging a refresh response into a stored record via Python
`dict.update` lets present response fields overwrite, keeps absent fields'
old values, and in particular preserves the stored `refresh_token` exactly
when the response omits it. -/
theorem C3_refresh_merge_semantics (tokens resp : Dict)
    (hnodup : (Dict.keys resp).Nodup) :
    (∀ k, Dict.find (Dict.update tokens resp) k =
      match Dict.find resp k with
      | some v => some v
      | none => Dict.find tokens k)
    ∧ (Dict.find resp "refresh_token" = none →
        Dict.find (Dict.update tokens resp) "refresh_token" =
          Dict.find tokens "refresh_token")
    ∧ (∀ v, Dict.find resp "refresh_token" = some v →
        Dict.find (Dict.update tokens resp) "refresh_token" = some v) := by
  refine ⟨fun k => Dict.find_update tokens resp hnodup k, ?_, ?_⟩
  · intro h
    rw [Dict.find_update tokens resp hnodup, h]
  · intro v h
    rw [Dict.find_update tokens resp hnodup, h]

theorem C3_refresh_merge_semantics_witness :
    Dict.find (Dict.update
      [("refresh_token", .str "OLD"), ("access_token", .str "A")]
      [("access_token", .str "B"), ("expires_in", .nat 60)]) "refresh_token" =
      some (.str "OLD") :=
  ((C3_refresh_merge_semantics
      [("refresh_token", .str "OLD"), ("access_token", .str "A")]
      [("access_token", .str "B"), ("expires_in", .nat 60)]
      (by decide)).2.1 (by decide)).trans (by decide)

/-- C4: saving a token record and loading it back yields a record whose
`expires_at` is the save-time clock plus the record's `expires_in` —
recomputed at persistence, never taken from the provider — and whose other
fields are exactly what was written. -/
theorem C4_save_load_roundtrip (tokens : Dict) (now n : Nat)
    (hin : Dict.find tokens "expires_in" = some (.nat n)) :
    ∃ saved, save_tokens now tokens = .ok saved
      ∧ load_tokens (some saved) = some saved
      ∧ Dict.find saved "expires_at" = some (.nat (now + n))
      ∧ ∀ k, k ≠ "expires_at" → Dict.find saved k = Dict.find tokens k := by
  refine ⟨Dict.upsert tokens "expires_at" (.nat (now + n)), ?_, rfl, ?_, ?_⟩
  · simp [save_tokens, hin]
  · rw [Dict.find_upsert]
    simp
  · intro k hk
    rw [Dict.find_upsert, if_neg hk]

theorem C4_save_load_roundtrip_witness :
    ∃ saved,
      save_tokens 50 [("expires_in", .nat 10), ("access_token", .str "A")] =
        .ok saved
      ∧ load_tokens (some saved) = some saved
      ∧ Dict.find saved "expires_at" = some (.nat 60)
      ∧ ∀ k, k ≠ "expires_at" →
          Dict.find saved k =
            Dict.find [("expires_in", .nat 10), ("access_token", .str "A")] k :=
  C4_save_load_roundtrip [("expires_in", .nat 10), ("access_token", .str "A")]
    50 10 (by decide)

/-- C5: whenever at least one resolved credential is empty,
`_check_arguments` raises `MissingRequiredArgumentsError` whose list of
missing names contains exactly the empty fields and no others. -/
theorem C5_missing_credentials_exact (a : SpotifyAuth)
    (h : a.client_id = "" ∨ a.client_secret = "" ∨ a.redirect_uri = "") :
    ∃ m, check_arguments a = .error (.missingArgs m)
      ∧ ∀ k, k ∈ m ↔
          (k = "client_id" ∧ a.client_id = "")
          ∨ (k = "client_secret" ∧ a.client_secret = "")
          ∨ (k = "redirect_uri" ∧ a.redirect_uri = "") := by
  have hne : missing_args a ≠ [] := by
    intro h0
    rcases h with h1 | h2 | h3
    · have hm := (mem_missing_args a "client_id").mpr (Or.inl ⟨rfl, h1⟩)
      rw [h0] at hm
      exact absurd hm (List.not_mem_nil _)
    · have hm := (mem_missing_args a "client_secret").mpr
        (Or.inr (Or.inl ⟨rfl, h2⟩))
      rw [h0] at hm
      exact absurd hm (List.not_mem_nil _)
    · have hm := (mem_missing_args a "redirect_uri").mpr
        (Or.inr (Or.inr ⟨rfl, h3⟩))
      rw [h0] at hm
      exact absurd hm (List.not_mem_nil _)
  exact ⟨missing_args a, by rw [check_arguments, if_neg hne],
    fun k => mem_missing_args a k⟩

theorem C5_missing_credentials_exact_witness :
    ∃ m, check_arguments ⟨"", "x", ""⟩ = .error (.missingArgs m)
      ∧ ∀ k, k ∈ m ↔
          (k = "client_id" ∧ ("" : String) = "")
          ∨ (k = "client_secret" ∧ ("x" : String) = "")
          ∨ (k = "redirect_uri" ∧ ("" : String) = "") :=
  C5_missing_credentials_exact ⟨"", "x", ""⟩ (Or.inl rfl)

/-- C1: the claim holds of `base/authorization.py` but the near-duplicate
`src/spotli/authorization.py` — the class `cli.py` imports — defines no
`_refresh_access_token` method, so on a stored record with `expires_at` in
the past and complete credentials its `get_access_token` raises
`AttributeError` instead of refreshing: no refresh request is issued,
nothing is persisted, no token is returned.  The same input through the
`base` implementation takes the refresh path with the stored
`refresh_token`, merges, persists and returns the new access token. -/
theorem C1_legacy_refresh_raises_attribute_error :
    Legacy.get_access_token ⟨"id", "secret", "http://localhost:8888/callback"⟩
      (some [("access_token", .str "OLD"), ("refresh_token", .str "RT"),
             ("token_type", .str "Bearer"), ("expires_in", .nat 3600),
             ("expires_at", .nat 100)])
      ⟨101, ⟨200, [("access_token", .str "NEW"), ("token_type", .str "Bearer"),
                   ("expires_in", .nat 7200)]⟩, [], ⟨200, []⟩⟩ =
      ⟨.error (.attributeError "_refresh_access_token"),
       some [("access_token", .str "OLD"), ("refresh_token", .str "RT"),
             ("token_type", .str "Bearer"), ("expires_in", .nat 3600),
             ("expires_at", .nat 100)], []⟩
    ∧ get_access_token ⟨"id", "secret", "http://localhost:8888/callback"⟩
      (some [("access_token", .str "OLD"), ("refresh_token", .str "RT"),
             ("token_type", .str "Bearer"), ("expires_in", .nat 3600),
             ("expires_at", .nat 100)])
      ⟨101, ⟨200, [("access_token", .str "NEW"), ("token_type", .str "Bearer"),
                   ("expires_in", .nat 7200)]⟩, [], ⟨200, []⟩⟩ =
      ⟨.ok (.str "NEW"),
       some [("access_token", .str "NEW"), ("refresh_token", .str "RT"),
             ("token_type", .str "Bearer"), ("expires_in", .nat 7200),
             ("expires_at", .nat 7301)],
       [refreshRequestBody (.str "RT")]⟩ := by
  exact ⟨by decide, by decide⟩

/-- C2: a stored record whose `expires_at` is not strictly earlier than now
makes `get_access_token` return the stored `access_token` verbatim, issue
no token-endpoint request and leave the token file unchanged — in both the
`base` implementation and the older duplicate. -/
theorem C2_unexpired_token_returned_verbatim
    (a : SpotifyAuth) (tokens : Dict) (w : World) (ea : Nat) (tok : Value)
    (hne : tokens.isEmpty = false)
    (hea : Dict.find tokens "expires_at" = some (.nat ea))
    (hnow : ¬ ea < w.now)
    (htok : Dict.find tokens "access_token" = some tok) :
    get_access_token a (some tokens) w = ⟨.ok tok, some tokens, []⟩
    ∧ Legacy.get_access_token a (some tokens) w = ⟨.ok tok, some tokens, []⟩ := by
  constructor <;>
    simp [get_access_token, Legacy.get_access_token, load_tokens, hne,
      parse_expires_at, hea, hnow, htok]

theorem C2_unexpired_token_returned_verbatim_witness :
    get_access_token ⟨"id", "s", "u"⟩
        (some [("access_token", .str "OLD"), ("expires_at", .nat 100)])
        ⟨100, ⟨200, []⟩, [], ⟨200, []⟩⟩ =
      ⟨.ok (.str "OLD"),
       some [("access_token", .str "OLD"), ("expires_at", .nat 100)], []⟩
    ∧ Legacy.get_access_token ⟨"id", "s", "u"⟩
        (some [("access_token", .str "OLD"), ("expires_at", .nat 100)])
        ⟨100, ⟨200, []⟩, [], ⟨200, []⟩⟩ =
      ⟨.ok (.str "OLD"),
       some [("access_token", .str "OLD"), ("expires_at", .nat 100)], []⟩ :=
  C2_unexpired_token_returned_verbatim ⟨"id", "s", "u"⟩
    [("access_token", .str "OLD"), ("expires_at", .nat 100)]
    ⟨100, ⟨200, []⟩, [], ⟨200, []⟩⟩ 100 (.str "OLD")
    (by decide) (by decide) (by decide) (by decide)

/-- C6: the claim holds of `base/authorization.py` (line 139 raises
`AuthorizationError()` with no arguments, and no exchange request is
issued), but in the near-duplicate `src/spotli/authorization.py` — the
class `cli.py` imports — line 131 passes a message to `AuthorizationError`
whose `__init__` in `spotli/exceptions.py` accepts none, so on a callback
request without a `code` parameter the no-code path raises `TypeError`,
not the authorization failure.  Neither implementation attempts the
authorization-code exchange on that path (both request lists are empty). -/
theorem C6_legacy_no_code_raises_type_error :
    Legacy.start_authorization_flow ⟨"id", "s", "u"⟩ none
      ⟨0, ⟨200, []⟩, [("error", "access_denied")], ⟨200, []⟩⟩ =
      ⟨.error .typeError, none, []⟩
    ∧ start_authorization_flow ⟨"id", "s", "u"⟩ none
      ⟨0, ⟨200, []⟩, [("error", "access_denied")], ⟨200, []⟩⟩ =
      ⟨.error .authorizationError, none, []⟩ := by
  exact ⟨by decide, by decide⟩

/-- C7 counterexample: the claim quantifies over every non-2xx status, but
`raise_for_status` raises only for `400 ≤ status < 600`.  A refresh
response with status 302 — non-2xx — raises nothing: the body is merged,
the file is overwritten with the merged record (store changes from the old
record to the saved one) and the new access token is returned, where the
claim demands an error and an unmodified file. -/
theorem C7_redirect_status_refresh_not_failed :
    get_access_token ⟨"id", "secret", "http://localhost:8888/callback"⟩
      (some [("access_token", .str "OLD"), ("refresh_token", .str "RT"),
             ("token_type", .str "Bearer"), ("expires_in", .nat 3600),
             ("expires_at", .nat 100)])
      ⟨101, ⟨302, [("access_token", .str "NEW"), ("token_type", .str "Bearer"),
                   ("expires_in", .nat 7200)]⟩, [], ⟨200, []⟩⟩ =
      ⟨.ok (.str "NEW"),
       some [("access_token", .str "NEW"), ("refresh_token", .str "RT"),
             ("token_type", .str "Bearer"), ("expires_in", .nat 7200),
             ("expires_at", .nat 7301)],
       [refreshRequestBody (.str "RT")]⟩
    ∧ (some [("access_token", .str "NEW"), ("refresh_token", .str "RT"),
             ("token_type", .str "Bearer"), ("expires_in", .nat 7200),
             ("expires_at", .nat 7301)] : Option Dict) ≠
      some [("access_token", .str "OLD"), ("refresh_token", .str "RT"),
            ("token_type", .str "Bearer"), ("expires_in", .nat 3600),
            ("expires_at", .nat 100)] := by
  exact ⟨by decide, by decide⟩

/-- C7 as amended: when the token endpoint answers a refresh with a 4xx or
5xx status (`400 ≤ status < 600`, e.g. HTTP 400), `get_access_token`
raises the `HTTPError` carrying the provider's status, the token file is
left unmodified, and the previously stored record is still loadable;
non-2xx statuses below 400 are not treated as failures. -/
theorem C7_refresh_4xx5xx_fails_store_untouched
    (a : SpotifyAuth) (tokens : Dict) (w : World) (ea : Nat) (rt : Value)
    (hne : tokens.isEmpty = false)
    (hea : Dict.find tokens "expires_at" = some (.nat ea))
    (hexp : ea < w.now)
    (hargs : missing_args a = [])
    (hrt : Dict.find tokens "refresh_token" = some rt)
    (hs1 : 400 ≤ w.refreshResp.status)
    (hs2 : w.refreshResp.status < 600) :
    get_access_token a (some tokens) w =
      ⟨.error (.httpError w.refreshResp.status), some tokens,
       [refreshRequestBody rt]⟩
    ∧ load_tokens (get_access_token a (some tokens) w).store = some tokens := by
  have h1 : get_access_token a (some tokens) w =
      ⟨.error (.httpError w.refreshResp.status), some tokens,
       [refreshRequestBody rt]⟩ := by
    simp [get_access_token, load_tokens, hne, parse_expires_at, hea, hexp,
      check_arguments, hargs, hrt, raise_for_status, hs1, hs2]
  exact ⟨h1, by rw [h1]; rfl⟩

theorem C7_refresh_4xx5xx_fails_store_untouched_witness :
    get_access_token ⟨"id", "s", "u"⟩
        (some [("access_token", .str "OLD"), ("refresh_token", .str "RT"),
               ("expires_at", .nat 100)])
        ⟨101, ⟨400, []⟩, [], ⟨200, []⟩⟩ =
      ⟨.error (.httpError 400),
       some [("access_token", .str "OLD"), ("refresh_token", .str "RT"),
             ("expires_at", .nat 100)],
       [refreshRequestBody (.str "RT")]⟩
    ∧ load_tokens (get_access_token ⟨"id", "s", "u"⟩
        (some [("access_token", .str "OLD"), ("refresh_token", .str "RT"),
               ("expires_at", .nat 100)])
        ⟨101, ⟨400, []⟩, [], ⟨200, []⟩⟩).store =
      some [("access_token", .str "OLD"), ("refresh_token", .str "RT"),
            ("expires_at", .nat 100)] :=
  C7_refresh_4xx5xx_fails_store_untouched ⟨"id", "s", "u"⟩
    [("access_token", .str "OLD"), ("refresh_token", .str "RT"),
     ("expires_at", .nat 100)]
    ⟨101, ⟨400, []⟩, [], ⟨200, []⟩⟩ 100 (.str "RT")
    (by decide) (by decide) (by decide) (by decide) (by decide)
    (by decide) (by decide)

/-- C8: the expiry comparison is strict `<`, so a record whose
`expires_at` equals the current clock is not expired and its access token
is returned without any request; one instant earlier likewise; one instant
past `expires_at` the record is expired and the refresh request with the
stored `refresh_token` is issued. -/
theorem C8_expiry_tie_break
    (a : SpotifyAuth) (tokens : Dict) (w : World) (ea : Nat) (tok rt : Value)
    (hne : tokens.isEmpty = false)
    (hea : Dict.find tokens "expires_at" = some (.nat ea))
    (htok : Dict.find tokens "access_token" = some tok)
    (hargs : missing_args a = [])
    (hrt : Dict.find tokens "refresh_token" = some rt) :
    (w.now = ea →
      get_access_token a (some tokens) w = ⟨.ok tok, some tokens, []⟩)
    ∧ (w.now < ea →
      get_access_token a (some tokens) w = ⟨.ok tok, some tokens, []⟩)
    ∧ (ea < w.now →
      (get_access_token a (some tokens) w).requests =
        [refreshRequestBody rt]) := by
  refine ⟨?_, ?_, ?_⟩
  · intro h
    have hlt : ¬ ea < w.now := by omega
    simp [get_access_token, load_tokens, hne, parse_expires_at, hea, hlt, htok]
  · intro h
    have hlt : ¬ ea < w.now := by omega
    simp [get_access_token, load_tokens, hne, parse_expires_at, hea, hlt, htok]
  · intro h
    simp only [get_access_token, load_tokens, hne, Bool.false_eq_true,
      if_false, parse_expires_at, hea, if_pos h, check_arguments, hargs,
      if_pos rfl, hrt]
    cases hr : raise_for_status w.refreshResp with
    | error e => simp
    | ok nt =>
      cases hs : save_tokens w.now (Dict.update tokens nt) with
      | error e => simp [hs]
      | ok sv =>
        cases hf : Dict.find sv "access_token" <;> simp [hs, hf]

theorem C8_expiry_tie_break_witness :
    ((⟨100, ⟨200, []⟩, [], ⟨200, []⟩⟩ : World).now = 100 →
      get_access_token ⟨"id", "s", "u"⟩
        (some [("access_token", .str "OLD"), ("refresh_token", .str "RT"),
               ("expires_at", .nat 100)])
        ⟨100, ⟨200, []⟩, [], ⟨200, []⟩⟩ =
      ⟨.ok (.str "OLD"),
       some [("access_token", .str "OLD"), ("refresh_token", .str "RT"),
             ("expires_at", .nat 100)], []⟩)
    ∧ ((⟨100, ⟨200, []⟩, [], ⟨200, []⟩⟩ : World).now < 100 →
      get_access_token ⟨"id", "s", "u"⟩
        (some [("access_token", .str "OLD"), ("refresh_token", .str "RT"),
               ("expires_at", .nat 100)])
        ⟨100, ⟨200, []⟩, [], ⟨200, []⟩⟩ =
      ⟨.ok (.str "OLD"),
       some [("access_token", .str "OLD"), ("refresh_token", .str "RT"),
             ("expires_at", .nat 100)], []⟩)
    ∧ (100 < (⟨100, ⟨200, []⟩, [], ⟨200, []⟩⟩ : World).now →
      (get_access_token ⟨"id", "s", "u"⟩
        (some [("access_token", .str "OLD"), ("refresh_token", .str "RT"),
               ("expires_at", .nat 100)])
        ⟨100, ⟨200, []⟩, [], ⟨200, []⟩⟩).requests =
      [refreshRequestBody (.str "RT")]) :=
  C8_expiry_tie_break ⟨"id", "s", "u"⟩
    [("access_token", .str "OLD"), ("refresh_token", .str "RT"),
     ("expires_at", .nat 100)]
    ⟨100, ⟨200, []⟩, [], ⟨200, []⟩⟩ 100 (.str "OLD") (.str "RT")
    (by decide) (by decide) (by decide) (by decide) (by decide)

/-- C9 counterexample: `_save_tokens` writes with
`open(TOKEN_PATH, "w")` + `json.dump` — the file is truncated in place and
rewritten, with no temporary file and rename.  A reader concurrent with a
save over a prior record can observe the truncated (empty) file, which is
neither the prior content nor the new record. -/
theorem C9_truncated_state_observable :
    ¬ ∀ s ∈ save_write_states (some "OLDRECORD") "NEWRECORD",
        s = some "OLDRECORD" ∨ s = some "NEWRECORD" := by
  decide

/-- C9 as amended: every save does write the full record over any prior
content (the final observable state is the new serialization), but the
write is not atomic: among the observable states is one — the truncated
file — that is neither the prior content nor the new record. -/
theorem C9_save_overwrites_but_not_atomic
    (prior : Option String) (serialized : String)
    (h1 : prior ≠ some "") (h2 : serialized ≠ "") :
    (save_write_states prior serialized).getLast? = some (some serialized)
    ∧ ∃ s ∈ save_write_states prior serialized,
        s ≠ prior ∧ s ≠ some serialized := by
  refine ⟨rfl, some "", ?_, Ne.symm h1, ?_⟩
  · simp [save_write_states]
  · intro he
    exact h2 (Option.some.inj he).symm

theorem C9_save_overwrites_but_not_atomic_witness :
    (save_write_states (some "OLD") "NEW").getLast? = some (some "NEW")
    ∧ ∃ s ∈ save_write_states (some "OLD") "NEW",
        s ≠ some "OLD" ∧ s ≠ some "NEW" :=
  C9_save_overwrites_but_not_atomic (some "OLD") "NEW" (by decide) (by decide)

/-- C10 counterexample: `SpotifyAPI._load_tokens` returns
`json.load(f).get("access_token")`, so a token file that exists but lacks
the `access_token` key constructs a client whose access token is absent
(`None`) — the constructor does not always fail on absence. -/
theorem C10_token_key_absent_client_constructed :
    ¬ ∀ (file : Option Dict) (r : Option Value),
        SpotifyAPI.load_tokens file = .ok r → r.isSome = true := by
  intro h
  have hc := h (some [("token_type", .str "Bearer")]) none (by decide)
  simp at hc

/-- C10 as amended: when the token file does not exist `_load_tokens`
raises `MissingApiTokenError` (the distinct run-`spotli auth` error), and
when the file exists the constructor succeeds with whatever
`get("access_token")` yields — `None` included, matching the loader's
declared optional return type. -/
theorem C10_missing_file_errors_missing_key_gives_none (d : Dict) :
    SpotifyAPI.load_tokens none = .error .missingApiToken
    ∧ SpotifyAPI.load_tokens (some d) = .ok (Dict.find d "access_token") :=
  ⟨rfl, rfl⟩

end Spotli
